import Mathlib

/-!
Verification development for the BoneTexture Slicer module
(`src/BoneTexture/BoneTexture.py`), a thin orchestration layer that
validates a scan/mask pair, suggests histogram parameters from intensity
statistics, launches up to three external CLI feature-computation jobs,
and collects their numeric result vectors asynchronously.

The shallow embedding below translates the logic-class methods into pure
Lean functions.  Python floats are modelled as rationals (`ℚ`); VTK nodes
are modelled by records carrying exactly the attributes the code reads
(`IsTypeOf('vtkMRMLVectorVolumeNode')`, `GetImageData().GetDimensions()`,
`GetSpacing()`, `GetOrigin()`); CLI job handles are records carrying
`IsBusy()`, `GetStatusString()` and `GetParameterValue(2, 0)`.  The
mutable attributes of `BoneTextureLogic` (`featuresGLCM`, `featuresGLRLM`,
`featuresBM`) together with the per-handler observer registrations become
an explicit state record threaded through the event handlers.
-/

namespace BoneTexture

/-- An input volume node as seen by the validation code: whether it is a
vector-valued volume (`IsTypeOf('vtkMRMLVectorVolumeNode')`), its image-data
dimensions (`GetImageData().GetDimensions()`, a tuple of integers compared
exactly), and its spacing and origin (tuples of floats, modelled as `ℚ`). -/
structure ImageVolume where
  isVector : Bool
  dimensions : List ℕ
  spacing : List ℚ
  origin : List ℚ
deriving DecidableEq

/-- The four validation failures of `inputDataVerification`, one per
distinct warning message displayed by the source. -/
inductive ValidationError where
  /-- warning "Please specify an input scan" -/
  | MissingScan
  /-- warning "The input scan has a vector pixel type, ..." -/
  | VectorTypeUnsupported
  /-- warning "... must be the same size" -/
  | DimensionMismatch
  /-- warning "... must overlap: same origin, spacing and orientation" -/
  | GeometryMismatch
deriving DecidableEq

/-- Embedding of `BoneTextureLogic.isClose(a, b, rel_tol, abs_tol)`: per-component
`abs(a[i] - b[i]) <= max(rel_tol * max(abs(a[i]), abs(b[i])), abs_tol)`,
`False` as soon as one component fails.  The source iterates over
`range(len(a))` indexing both sequences; all call sites pass two
3-component tuples, which the pairwise `zip` reproduces. -/
def isClose (a b : List ℚ) (rel_tol abs_tol : ℚ) : Bool :=
  (List.zip a b).all fun p =>
    decide (|p.1 - p.2| ≤ max (rel_tol * max |p.1| |p.2|) abs_tol)

/-- Embedding of `BoneTextureLogic.inputDataVerification(inputScan, inputSegmentation)`:
scan must be given; scan must not be a vector volume; if a segmentation is
also given, dimensions must be equal and spacing and origin must each be
`isClose` with `rel_tol = 0.0`, `abs_tol = 1e-04`.  The source returns
`False` after displaying the corresponding warning; the embedding returns
the warning's `ValidationError`. -/
def inputDataVerification (inputScan inputSegmentation : Option ImageVolume) :
    Except ValidationError Unit :=
  match inputScan with
  | none => .error .MissingScan
  | some scan =>
    if scan.isVector then .error .VectorTypeUnsupported
    else
      match inputSegmentation with
      | none => .ok ()
      | some seg =>
        if scan.dimensions ≠ seg.dimensions then .error .DimensionMismatch
        else if ¬ (isClose scan.spacing seg.spacing 0 (1/10000)
                    ∧ isClose scan.origin seg.origin 0 (1/10000)) then
          .error .GeometryMismatch
        else .ok ()

/-- Modelled from the spec (§4.1): per-axis agreement within absolute
tolerance `1e-4`, used to phrase the spec-side validation rules. -/
def withinTolB (a b : List ℚ) : Bool :=
  (List.zip a b).all fun p => decide (|p.1 - p.2| ≤ 1/10000)

/-- Modelled from the spec (§4.1 `validate`): the four rules checked in
order, first failure wins.  (1) scan present, else `MissingScan`; (2) scan
not vector-valued, else `VectorTypeUnsupported`; (3) with a mask,
dimensions exactly equal, else `DimensionMismatch`; (4) with a mask,
spacing and origin within absolute tolerance `1e-4` per axis, else
`GeometryMismatch`. -/
def validateSpec (scan mask : Option ImageVolume) : Except ValidationError Unit :=
  match scan with
  | none => .error .MissingScan
  | some v =>
    if v.isVector then .error .VectorTypeUnsupported
    else
      match mask with
      | none => .ok ()
      | some m =>
        if v.dimensions ≠ m.dimensions then .error .DimensionMismatch
        else if ¬ (withinTolB v.spacing m.spacing ∧ withinTolB v.origin m.origin) then
          .error .GeometryMismatch
        else .ok ()

/-- Embedding of `BoneTextureLogic.computeBinsBasedOnIntensityRange(min, max)`:
`100 * int(math.ceil(abs(max - min) / 1000.0))`. -/
def computeBinsBasedOnIntensityRange (minIntensityValue maxIntensityValue : ℚ) : ℤ :=
  100 * ⌈|maxIntensityValue - minIntensityValue| / 1000⌉

/-- The three feature families; each owns one CLI module, one completion
handler and one result slot. -/
inductive FilterKind where
  | Cooccurrence
  | RunLength
  | Morphometry
deriving DecidableEq

/-- One external CLI job created by `computeFeatures`: the filter family,
the snapshot of its parameter dictionary (`dict(valueDict)`, kept abstract
as `P`), and the `inputVolume` / `inputMask` entries added to it. -/
structure CLIJob (P : Type) where
  kind : FilterKind
  params : P
  inputVolume : Option ImageVolume
  inputMask : Option ImageVolume

/-- A warning `computeFeatures` can display before launching: a validation
failure forwarded from `inputDataVerification`, or the "Please select at
least one type of features to compute" warning. -/
inductive LaunchError where
  | validation (e : ValidationError)
  | NoFeatureSelected
deriving DecidableEq

/-- What a call to `computeFeatures` produces: the warning displayed, if
any, and the list of CLI jobs created and run (in source order GLCM,
GLRLM, BM). -/
structure LaunchOutcome (P : Type) where
  warning : Option LaunchError
  jobs : List (CLIJob P)

/-- Embedding of `BoneTextureLogic.computeFeatures(...)`: run `inputDataVerification`
first (returning on failure), then require at least one of the three
feature checkboxes, then for each selected family copy its parameter
dictionary, add `inputVolume` and `inputMask`, create the CLI node,
observe it and run it asynchronously. -/
def computeFeatures {P : Type} (inputScan inputSegmentation : Option ImageVolume)
    (computeGLCMFeatures computeGLRLMFeatures computeBMFeatures : Bool)
    (GLCMFeaturesValueDict GLRLMFeaturesValueDict BMFeaturesValueDict : P) :
    LaunchOutcome P :=
  match inputDataVerification inputScan inputSegmentation with
  | .error e => ⟨some (.validation e), []⟩
  | .ok _ =>
    if ¬ (computeGLCMFeatures || computeGLRLMFeatures || computeBMFeatures) then
      ⟨some .NoFeatureSelected, []⟩
    else
      ⟨none,
        (if computeGLCMFeatures then
          [⟨.Cooccurrence, GLCMFeaturesValueDict, inputScan, inputSegmentation⟩] else [])
        ++ (if computeGLRLMFeatures then
          [⟨.RunLength, GLRLMFeaturesValueDict, inputScan, inputSegmentation⟩] else [])
        ++ (if computeBMFeatures then
          [⟨.Morphometry, BMFeaturesValueDict, inputScan, inputSegmentation⟩] else [])⟩

/-- Whitespace stripping as done by Python's `float` on its string
argument, over a character list. -/
def pyStrip (cs : List Char) : List Char :=
  ((cs.dropWhile Char.isWhitespace).reverse.dropWhile Char.isWhitespace).reverse

/-- Decimal digit-string value: `some` of the base-10 value when the list
is non-empty and all digits, `none` otherwise. -/
def digitsToNat? (cs : List Char) : Option ℕ :=
  match cs with
  | [] => none
  | _ => cs.foldlM (fun a c => if c.isDigit then some (10 * a + (c.toNat - 48)) else none) 0

/-- Consume an optional leading sign, returning whether it was `-` and the
rest. -/
def takeSign : List Char → Bool × List Char
  | '-' :: rest => (true, rest)
  | '+' :: rest => (false, rest)
  | cs => (false, cs)

/-- The mantissa part of a Python float literal: digits, optionally with a
single decimal point and a digit part on at least one side of it. -/
def parseMantissa? (cs : List Char) : Option ℚ :=
  match cs.span (· ≠ '.') with
  | (intPart, []) => (digitsToNat? intPart).map fun n => (n : ℚ)
  | (intPart, _ :: fracPart) =>
    if intPart.isEmpty && fracPart.isEmpty then none
    else do
      let i ← if intPart.isEmpty then some 0 else digitsToNat? intPart
      let f ← if fracPart.isEmpty then some 0 else digitsToNat? fracPart
      some ((i : ℚ) + (f : ℚ) / (10 : ℚ) ^ fracPart.length)

/-- Python's `float(s)` on a numeric literal string, as an exact rational:
optional surrounding whitespace, optional sign, decimal mantissa, optional
`e`/`E` exponent.  `none` models the `ValueError` raised on any other
string. -/
def pythonFloat? (s : String) : Option ℚ :=
  let cs := pyStrip s.toList
  let (neg, cs) := takeSign cs
  let signed : ℚ → ℚ := fun q => if neg then -q else q
  match cs.span (fun c => c ≠ 'e' && c ≠ 'E') with
  | (mant, []) => (parseMantissa? mant).map signed
  | (mant, _ :: expPart) => do
    let m ← parseMantissa? mant
    let (eneg, ecs) := takeSign expPart
    let e ← digitsToNat? ecs
    some (signed (m * (10 : ℚ) ^ (if eneg then -(e : ℤ) else (e : ℤ))))

/-- Python's `s.split(",")` over a character list: splitting at every
comma, keeping empty fields (so the empty string yields one empty
field). -/
def splitOnComma : List Char → List (List Char)
  | [] => [[]]
  | c :: rest =>
    let r := splitOnComma rest
    if c = ',' then [] :: r
    else
      match r with
      | [] => [[c]]
      | g :: gs => (c :: g) :: gs

/-- Sequence a list of optional values, `none` as soon as one entry is
`none` — the effect of Python's `list(map(float, ...))`, where the first
bad field raises. -/
def allSome {α : Type} : List (Option α) → Option (List α)
  | [] => some []
  | none :: _ => none
  | some a :: rest => (allSome rest).map (a :: ·)

/-- Embedding of `list(map(float, value.split(",")))` on the job's output parameter
value: `none` models the `ValueError` escaping the handler. -/
def parseFeatureVector? (s : String) : Option (List ℚ) :=
  allSome ((splitOnComma s.toList).map fun cs => pythonFloat? (String.mk cs))

/-- A CLI module node as seen by the completion handlers: `IsBusy()`,
`GetStatusString()` and `GetParameterValue(2, 0)` (the designated output
field, a comma-separated list of numbers). -/
structure CLINode where
  isBusy : Bool
  statusString : String
  outputValue : String
deriving DecidableEq

/-- The mutable state of `BoneTextureLogic` relevant to the completion
handlers: the three result slots (initialised to `None` in `__init__`),
whether each handler is currently registered as an observer
(`addObserver` in `computeFeatures` / `removeObservers` in the handler),
and whether `self.interface` is not `None`. -/
structure LogicState where
  featuresGLCM : Option (List ℚ)
  featuresGLRLM : Option (List ℚ)
  featuresBM : Option (List ℚ)
  glcmObserved : Bool
  glrlmObserved : Bool
  bmObserved : Bool
  hasInterface : Bool
deriving DecidableEq

/-- The three most recent result vectors, one per filter family — the
`FeatureResultSet` of the spec. -/
structure FeatureResultSet where
  glcm : Option (List ℚ)
  glrlm : Option (List ℚ)
  bm : Option (List ℚ)
deriving DecidableEq

/-- Projection of the logic state onto its three result slots. -/
def resultSet (s : LogicState) : FeatureResultSet :=
  ⟨s.featuresGLCM, s.featuresGLRLM, s.featuresBM⟩

/-- Embedding of `BoneTextureLogic.onGLCMNodeModified(cliNode, event)`: if the node is
no longer busy, remove this observer, and if the status string is
`'Completed'`, parse the output field into `featuresGLCM` and call
`interface.onDisplayFeatures()` when an interface is attached.  The
returned flag records whether `onDisplayFeatures` was called.  A parse
failure (`ValueError` in `float`) aborts the handler after the observer
removal, leaving the slot unassigned. -/
def onGLCMNodeModified (s : LogicState) (cliNode : CLINode) : LogicState × Bool :=
  if cliNode.isBusy then (s, false)
  else
    let s1 := { s with glcmObserved := false }
    if cliNode.statusString = "Completed" then
      match parseFeatureVector? cliNode.outputValue with
      | some xs => ({ s1 with featuresGLCM := some xs }, s1.hasInterface)
      | none => (s1, false)
    else (s1, false)

/-- Embedding of `BoneTextureLogic.onGLRLMNodeModified(cliNode, event)`: same shape as
the GLCM handler, writing `featuresGLRLM`. -/
def onGLRLMNodeModified (s : LogicState) (cliNode : CLINode) : LogicState × Bool :=
  if cliNode.isBusy then (s, false)
  else
    let s1 := { s with glrlmObserved := false }
    if cliNode.statusString = "Completed" then
      match parseFeatureVector? cliNode.outputValue with
      | some xs => ({ s1 with featuresGLRLM := some xs }, s1.hasInterface)
      | none => (s1, false)
    else (s1, false)

/-- Embedding of `BoneTextureLogic.onBMNodeModified(cliNode, event)`: same shape as the
GLCM handler, writing `featuresBM`. -/
def onBMNodeModified (s : LogicState) (cliNode : CLINode) : LogicState × Bool :=
  if cliNode.isBusy then (s, false)
  else
    let s1 := { s with bmObserved := false }
    if cliNode.statusString = "Completed" then
      match parseFeatureVector? cliNode.outputValue with
      | some xs => ({ s1 with featuresBM := some xs }, s1.hasInterface)
      | none => (s1, false)
    else (s1, false)

/-- The observer-registration flag owned by each filter family's
handler. -/
def observedOf (k : FilterKind) (s : LogicState) : Bool :=
  match k with
  | .Cooccurrence => s.glcmObserved
  | .RunLength => s.glrlmObserved
  | .Morphometry => s.bmObserved

/-- The completion handler registered for each filter family's CLI
node. -/
def onNodeModified : FilterKind → LogicState → CLINode → LogicState × Bool
  | .Cooccurrence => onGLCMNodeModified
  | .RunLength => onGLRLMNodeModified
  | .Morphometry => onBMNodeModified

/-- One status notification dispatched by the host: the handler runs only
while its observer registration is still in place. -/
def deliver (k : FilterKind) (s : LogicState) (cliNode : CLINode) : LogicState × Bool :=
  if observedOf k s then onNodeModified k s cliNode else (s, false)

/-- A sequence of status notifications for one job, dispatched in order;
the second component counts how many deliveries ran the handler's
not-busy body (the branch that removes the observer and inspects the
terminal status). -/
def deliverSeq (k : FilterKind) (s : LogicState) : List CLINode → LogicState × ℕ
  | [] => (s, 0)
  | n :: rest =>
    let ran := observedOf k s && !n.isBusy
    let out := deliverSeq k (deliver k s n).1 rest
    (out.1, (if ran then 1 else 0) + out.2)

/-- The value a completion delivery leaves in its own result slot, as a
function of the notification, the observer flag and the current slot. -/
def slotNext (cliNode : CLINode) (observed : Bool) (cur : Option (List ℚ)) :
    Option (List ℚ) :=
  if observed then
    if cliNode.isBusy then cur
    else if cliNode.statusString = "Completed" then
      match parseFeatureVector? cliNode.outputValue with
      | some xs => some xs
      | none => cur
    else cur
  else cur

/-- The observer flag after a delivery: it stays set only while the node
is still busy. -/
def obsNext (cliNode : CLINode) (observed : Bool) : Bool :=
  observed && cliNode.isBusy

/-- Per-axis agreement within absolute tolerance `1e-4`, as a
proposition over the paired components. -/
def perAxisWithin (a b : List ℚ) : Prop :=
  ∀ p ∈ a.zip b, |p.1 - p.2| ≤ 1/10000

/- ------------------------------------------------------------------ -/
/- Theorems                                                            -/
/- ------------------------------------------------------------------ -/

/-- With `rel_tol = 0`, `isClose` is exactly the per-axis absolute
comparison against `abs_tol = 1e-4`. -/
theorem isClose_zero_abs_tol (a b : List ℚ) :
    isClose a b 0 (1/10000) = withinTolB a b := by
  have hmax : max (0 : ℚ) (1/10000) = 1/10000 := max_eq_right (by norm_num)
  unfold isClose withinTolB
  simp only [zero_mul, hmax]

/-- The check `isClose` with `rel_tol = 0`, `abs_tol = 1e-4` holds exactly when
every paired component differs by at most `1e-4`. -/
theorem isClose_zero_iff (a b : List ℚ) :
    isClose a b 0 (1/10000) = true ↔ perAxisWithin a b := by
  rw [isClose_zero_abs_tol]
  unfold withinTolB perAxisWithin
  simp [List.all_eq_true]

/-- C1: for `intensityMax ≥ intensityMin` the suggested bin count is
`100 * ceil((intensityMax - intensityMin) / 1000)`, a non-negative
multiple of 100, and it is `0` when the two intensities coincide (no
minimum floor is applied). -/
theorem C1_binCount_formula (a b : ℚ) (h : a ≤ b) :
    computeBinsBasedOnIntensityRange a b = 100 * ⌈(b - a) / 1000⌉ ∧
    0 ≤ computeBinsBasedOnIntensityRange a b ∧
    (100 : ℤ) ∣ computeBinsBasedOnIntensityRange a b ∧
    computeBinsBasedOnIntensityRange a a = 0 := by
  refine ⟨?_, ?_, ?_, ?_⟩
  · unfold computeBinsBasedOnIntensityRange
    rw [abs_of_nonneg (sub_nonneg.mpr h)]
  · unfold computeBinsBasedOnIntensityRange
    have hx : (0 : ℚ) ≤ |b - a| / 1000 := by positivity
    exact mul_nonneg (by norm_num) (Int.ceil_nonneg hx)
  · exact dvd_mul_right 100 _
  · unfold computeBinsBasedOnIntensityRange
    simp

/-- Witness for C1 at `(intensityMin, intensityMax) = (0, 4000)`:
the suggested bin count is `400`, and at `(0, 0)` it is `0`. -/
theorem C1_binCount_formula_witness :
    (0 : ℚ) ≤ 4000 ∧
    computeBinsBasedOnIntensityRange 0 4000 = 400 ∧
    computeBinsBasedOnIntensityRange 0 0 = 0 := by
  have h := C1_binCount_formula 0 4000 (by norm_num)
  refine ⟨by norm_num, ?_, h.2.2.2⟩
  rw [h.1]
  norm_num

/-- C10: with no ordering precondition the suggested bin count is
symmetric in its two arguments and is always a non-negative multiple of
100, because the implementation takes the absolute value of the
difference. -/
theorem C10_binCount_symmetric (a b : ℚ) :
    computeBinsBasedOnIntensityRange a b = computeBinsBasedOnIntensityRange b a ∧
    0 ≤ computeBinsBasedOnIntensityRange a b ∧
    (100 : ℤ) ∣ computeBinsBasedOnIntensityRange a b := by
  unfold computeBinsBasedOnIntensityRange
  refine ⟨by rw [abs_sub_comm], ?_, dvd_mul_right 100 _⟩
  have hx : (0 : ℚ) ≤ |b - a| / 1000 := by positivity
  exact mul_nonneg (by norm_num) (Int.ceil_nonneg hx)

/-- C2: `inputDataVerification` applies the spec's rules in their fixed
order with the first failure winning (it coincides with `validateSpec`,
the rule list transcribed from the spec), and a vector-valued scan is
rejected with `VectorTypeUnsupported` regardless of mask presence. -/
theorem C2_validation_rules_in_order (scan mask : Option ImageVolume) :
    inputDataVerification scan mask = validateSpec scan mask ∧
    (∀ v : ImageVolume, v.isVector = true →
      inputDataVerification (some v) mask = .error .VectorTypeUnsupported) := by
  constructor
  · unfold inputDataVerification validateSpec
    cases scan with
    | none => rfl
    | some v =>
      cases mask with
      | none => rfl
      | some m => simp only [isClose_zero_abs_tol]
  · intro v hv
    unfold inputDataVerification
    simp [hv]

/-- Witness for C2: on a concrete vector-valued scan with a mask present
the result is `VectorTypeUnsupported`, and on the empty input the
embedding agrees with the spec-side rule list. -/
theorem C2_validation_rules_in_order_witness :
    inputDataVerification none none = validateSpec none none ∧
    inputDataVerification
        (some ⟨true, [256, 256, 100], [1, 1, 1], [0, 0, 0]⟩)
        (some ⟨false, [256, 256, 100], [1, 1, 1], [0, 0, 0]⟩) =
      .error .VectorTypeUnsupported := by
  refine ⟨(C2_validation_rules_in_order none none).1, ?_⟩
  exact (C2_validation_rules_in_order
    (some ⟨true, [256, 256, 100], [1, 1, 1], [0, 0, 0]⟩)
    (some ⟨false, [256, 256, 100], [1, 1, 1], [0, 0, 0]⟩)).2 _ rfl

/-- On a present scalar scan and a mask of equal dimensions, validation
reduces to the combined spacing/origin closeness check. -/
theorem inputDataVerification_geom (scan mask : ImageVolume)
    (hvec : scan.isVector = false) (hdim : scan.dimensions = mask.dimensions) :
    inputDataVerification (some scan) (some mask) =
      if (isClose scan.spacing mask.spacing 0 (1/10000)
          ∧ isClose scan.origin mask.origin 0 (1/10000))
      then .ok () else .error .GeometryMismatch := by
  simp only [inputDataVerification]
  rw [if_neg (by simp [hvec]), if_neg (by simp [hdim]), ite_not]

/-- C7: for a present scalar scan and mask of equal dimensions,
validation succeeds exactly when spacing and origin agree per axis within
absolute tolerance `1e-4`, and otherwise fails with `GeometryMismatch`. -/
theorem C7_geometry_tolerance (scan mask : ImageVolume)
    (hvec : scan.isVector = false) (hdim : scan.dimensions = mask.dimensions) :
    (inputDataVerification (some scan) (some mask) = .ok () ↔
      (perAxisWithin scan.spacing mask.spacing ∧ perAxisWithin scan.origin mask.origin)) ∧
    (inputDataVerification (some scan) (some mask) = .error .GeometryMismatch ↔
      ¬ (perAxisWithin scan.spacing mask.spacing ∧ perAxisWithin scan.origin mask.origin)) := by
  rw [inputDataVerification_geom scan mask hvec hdim]
  by_cases hg : isClose scan.spacing mask.spacing 0 (1/10000) = true ∧
      isClose scan.origin mask.origin 0 (1/10000) = true
  · have hpa : perAxisWithin scan.spacing mask.spacing ∧ perAxisWithin scan.origin mask.origin :=
      ⟨(isClose_zero_iff _ _).mp hg.1, (isClose_zero_iff _ _).mp hg.2⟩
    rw [if_pos hg]
    exact ⟨iff_of_true rfl hpa,
      iff_of_false (by intro hh; cases hh) (not_not_intro hpa)⟩
  · have hpa : ¬ (perAxisWithin scan.spacing mask.spacing ∧ perAxisWithin scan.origin mask.origin) := by
      intro hc
      exact hg ⟨(isClose_zero_iff _ _).mpr hc.1, (isClose_zero_iff _ _).mpr hc.2⟩
    rw [if_neg hg]
    exact ⟨iff_of_false (by intro hh; cases hh) hpa, iff_of_true rfl hpa⟩

/-- Witness for C7: a pair of volumes whose origins differ by `5e-5` in
every axis is accepted; differing by `2e-4` in every axis is rejected
with `GeometryMismatch`. -/
theorem C7_geometry_tolerance_witness :
    inputDataVerification
        (some ⟨false, [256, 256, 100], [1, 1, 1], [0, 0, 0]⟩)
        (some ⟨false, [256, 256, 100], [1, 1, 1], [1/20000, 1/20000, 1/20000]⟩) = .ok () ∧
    inputDataVerification
        (some ⟨false, [256, 256, 100], [1, 1, 1], [0, 0, 0]⟩)
        (some ⟨false, [256, 256, 100], [1, 1, 1], [1/5000, 1/5000, 1/5000]⟩) =
      .error .GeometryMismatch := by
  constructor
  · apply (C7_geometry_tolerance
      ⟨false, [256, 256, 100], [1, 1, 1], [0, 0, 0]⟩
      ⟨false, [256, 256, 100], [1, 1, 1], [1/20000, 1/20000, 1/20000]⟩ rfl rfl).1.mpr
    constructor <;>
      · simp only [perAxisWithin]
        simp [List.zip]
        all_goals norm_num [abs_sub_comm, abs_of_nonneg]
  · apply (C7_geometry_tolerance
      ⟨false, [256, 256, 100], [1, 1, 1], [0, 0, 0]⟩
      ⟨false, [256, 256, 100], [1, 1, 1], [1/5000, 1/5000, 1/5000]⟩ rfl rfl).2.mpr
    intro hc
    have h2 := hc.2 ((0 : ℚ), (1/5000 : ℚ)) (by simp [List.zip])
    rw [abs_sub_comm, sub_zero, abs_of_nonneg (by norm_num)] at h2
    norm_num at h2

/-- C5: launching with no feature family selected creates zero external
jobs, and (when input validation passes, the check performed first)
reports `NoFeatureSelected`. -/
theorem C5_no_feature_selected {P : Type} (scan seg : Option ImageVolume) (d1 d2 d3 : P) :
    (computeFeatures scan seg false false false d1 d2 d3).jobs = [] ∧
    (inputDataVerification scan seg = .ok () →
      (computeFeatures scan seg false false false d1 d2 d3).warning =
        some .NoFeatureSelected) := by
  unfold computeFeatures
  cases h : inputDataVerification scan seg with
  | error e => exact ⟨rfl, fun hok => nomatch hok⟩
  | ok u => exact ⟨rfl, fun _ => rfl⟩

/-- Witness for C5: a valid scan with no mask and all three checkboxes
cleared yields the `NoFeatureSelected` warning and zero jobs. -/
theorem C5_no_feature_selected_witness :
    (computeFeatures (P := Unit) (some ⟨false, [256, 256, 100], [1, 1, 1], [0, 0, 0]⟩)
        none false false false () () ()).jobs = [] ∧
    (computeFeatures (P := Unit) (some ⟨false, [256, 256, 100], [1, 1, 1], [0, 0, 0]⟩)
        none false false false () () ()).warning = some .NoFeatureSelected := by
  have h := C5_no_feature_selected (P := Unit)
    (some ⟨false, [256, 256, 100], [1, 1, 1], [0, 0, 0]⟩) none () () ()
  exact ⟨h.1, h.2 rfl⟩

/-- C6: when input validation fails, `computeFeatures` reports the
validation error and creates no external job for any requested feature
family — the whole batch is aborted. -/
theorem C6_validation_aborts_batch {P : Type} (scan seg : Option ImageVolume)
    (g r b : Bool) (d1 d2 d3 : P) (e : ValidationError)
    (h : inputDataVerification scan seg = .error e) :
    (computeFeatures scan seg g r b d1 d2 d3).warning = some (.validation e) ∧
    (computeFeatures scan seg g r b d1 d2 d3).jobs = [] := by
  unfold computeFeatures
  rw [h]
  exact ⟨rfl, rfl⟩

/-- Witness for C6: a missing scan with all three feature families
requested reports `MissingScan` and creates zero jobs. -/
theorem C6_validation_aborts_batch_witness :
    (computeFeatures (P := Unit) none none true true true () () ()).warning =
      some (.validation .MissingScan) ∧
    (computeFeatures (P := Unit) none none true true true () () ()).jobs = [] :=
  C6_validation_aborts_batch none none true true true () () () .MissingScan rfl

/-- Sequencing a list of optional values succeeds with a list of the
same length. -/
theorem allSome_length {α : Type} :
    ∀ (l : List (Option α)) (xs : List α), allSome l = some xs → xs.length = l.length := by
  intro l
  induction l with
  | nil =>
    intro xs h
    simp only [allSome, Option.some.injEq] at h
    subst h
    rfl
  | cons a t ih =>
    intro xs h
    cases a with
    | none => exact absurd h (by simp [allSome])
    | some v =>
      simp only [allSome] at h
      cases ht : allSome t with
      | none => rw [ht] at h; exact absurd h (by simp)
      | some ys =>
        rw [ht] at h
        have hx : v :: ys = xs := by injection h
        subst hx
        simp [ih ys ht]

/-- A successfully parsed output vector has exactly one entry per
comma-separated field of the output string. -/
theorem parseFeatureVector_length (s : String) (xs : List ℚ)
    (h : parseFeatureVector? s = some xs) :
    xs.length = (splitOnComma s.toList).length := by
  unfold parseFeatureVector? at h
  simpa using allSome_length _ _ h

/-- C3: a no-longer-busy job whose terminal status is not `"Completed"`
leaves every handler's own result slot unchanged and does not call
`onDisplayFeatures`. -/
theorem C3_failed_job_leaves_slot (s : LogicState) (node : CLINode)
    (hb : node.isBusy = false) (hs : node.statusString ≠ "Completed") :
    ((onGLCMNodeModified s node).1.featuresGLCM = s.featuresGLCM ∧
     (onGLCMNodeModified s node).2 = false) ∧
    ((onGLRLMNodeModified s node).1.featuresGLRLM = s.featuresGLRLM ∧
     (onGLRLMNodeModified s node).2 = false) ∧
    ((onBMNodeModified s node).1.featuresBM = s.featuresBM ∧
     (onBMNodeModified s node).2 = false) := by
  simp [onGLCMNodeModified, onGLRLMNodeModified, onBMNodeModified, hb, hs]

/-- Witness for C3: a job finishing as `"CompletedWithErrors"` leaves a
stale previous GLCM value in place and fires no notification. -/
theorem C3_failed_job_leaves_slot_witness :
    (onGLCMNodeModified ⟨some [1], none, none, true, true, true, true⟩
        ⟨false, "CompletedWithErrors", ""⟩).1.featuresGLCM = some [1] ∧
    (onGLCMNodeModified ⟨some [1], none, none, true, true, true, true⟩
        ⟨false, "CompletedWithErrors", ""⟩).2 = false := by
  have h := C3_failed_job_leaves_slot ⟨some [1], none, none, true, true, true, true⟩
    ⟨false, "CompletedWithErrors", ""⟩ rfl (by decide)
  exact h.1

/-- C8: a job completing with status `"Completed"` has its output field
parsed as a comma-separated list of numbers (one float per field), stored
into the result slot matching its filter family only, and triggers the
`onDisplayFeatures` notification exactly when an interface is attached. -/
theorem C8_completed_stores_and_notifies (s : LogicState) (node : CLINode) (xs : List ℚ)
    (hb : node.isBusy = false) (hst : node.statusString = "Completed")
    (hp : parseFeatureVector? node.outputValue = some xs) :
    ((onGLCMNodeModified s node).1.featuresGLCM = some xs ∧
     (onGLCMNodeModified s node).1.featuresGLRLM = s.featuresGLRLM ∧
     (onGLCMNodeModified s node).1.featuresBM = s.featuresBM ∧
     (onGLCMNodeModified s node).2 = s.hasInterface) ∧
    ((onGLRLMNodeModified s node).1.featuresGLRLM = some xs ∧
     (onGLRLMNodeModified s node).1.featuresGLCM = s.featuresGLCM ∧
     (onGLRLMNodeModified s node).1.featuresBM = s.featuresBM ∧
     (onGLRLMNodeModified s node).2 = s.hasInterface) ∧
    ((onBMNodeModified s node).1.featuresBM = some xs ∧
     (onBMNodeModified s node).1.featuresGLCM = s.featuresGLCM ∧
     (onBMNodeModified s node).1.featuresGLRLM = s.featuresGLRLM ∧
     (onBMNodeModified s node).2 = s.hasInterface) ∧
    xs.length = (splitOnComma node.outputValue.toList).length := by
  refine ⟨?_, ?_, ?_, parseFeatureVector_length _ _ hp⟩ <;>
    simp [onGLCMNodeModified, onGLRLMNodeModified, onBMNodeModified, hb, hst, hp]

/-- Witness for C8: outputs with 8, 10 and 5 comma-separated fields are
stored as float vectors of lengths 8, 10 and 5 into the GLCM, GLRLM and
BM slots respectively. -/
theorem C8_completed_stores_and_notifies_witness :
    (onGLCMNodeModified ⟨none, none, none, true, true, true, true⟩
        ⟨false, "Completed", "1,2,3,4,5,6,7,8"⟩).1.featuresGLCM =
      some [1, 2, 3, 4, 5, 6, 7, 8] ∧
    ([1, 2, 3, 4, 5, 6, 7, 8] : List ℚ).length = 8 ∧
    (onGLRLMNodeModified ⟨none, none, none, true, true, true, true⟩
        ⟨false, "Completed", "1,2,3,4,5,6,7,8,9,10"⟩).1.featuresGLRLM =
      some [1, 2, 3, 4, 5, 6, 7, 8, 9, 10] ∧
    ([1, 2, 3, 4, 5, 6, 7, 8, 9, 10] : List ℚ).length = 10 ∧
    (onBMNodeModified ⟨none, none, none, true, true, true, true⟩
        ⟨false, "Completed", "1,2,3,4,5"⟩).1.featuresBM = some [1, 2, 3, 4, 5] ∧
    ([1, 2, 3, 4, 5] : List ℚ).length = 5 := by
  have h8 := C8_completed_stores_and_notifies ⟨none, none, none, true, true, true, true⟩
    ⟨false, "Completed", "1,2,3,4,5,6,7,8"⟩ [1, 2, 3, 4, 5, 6, 7, 8] rfl rfl (by decide)
  have h10 := C8_completed_stores_and_notifies ⟨none, none, none, true, true, true, true⟩
    ⟨false, "Completed", "1,2,3,4,5,6,7,8,9,10"⟩ [1, 2, 3, 4, 5, 6, 7, 8, 9, 10]
    rfl rfl (by decide)
  have h5 := C8_completed_stores_and_notifies ⟨none, none, none, true, true, true, true⟩
    ⟨false, "Completed", "1,2,3,4,5"⟩ [1, 2, 3, 4, 5] rfl rfl (by decide)
  exact ⟨h8.1.1, h8.2.2.2.trans (by decide), h10.2.1.1, h10.2.2.2.trans (by decide),
    h5.2.2.1.1, h5.2.2.2.trans (by decide)⟩

/-- A handler invoked while its node is still busy does nothing. -/
theorem onNodeModified_busy (k : FilterKind) (s : LogicState) (n : CLINode)
    (h : n.isBusy = true) : onNodeModified k s n = (s, false) := by
  cases k <;>
    simp [onNodeModified, onGLCMNodeModified, onGLRLMNodeModified, onBMNodeModified, h]

/-- A handler invoked once its node is no longer busy clears its own
observer flag, whatever the terminal status string is. -/
theorem observedOf_after_detach (k : FilterKind) (s : LogicState) (n : CLINode)
    (h : n.isBusy = false) : observedOf k (onNodeModified k s n).1 = false := by
  cases k <;>
    · simp only [onNodeModified, onGLCMNodeModified, onGLRLMNodeModified, onBMNodeModified,
        observedOf, h, Bool.false_eq_true, if_false]
      split
      · split <;> rfl
      · rfl

/-- A delivery to an already-detached observer is a no-op. -/
theorem deliver_not_observed (k : FilterKind) (s : LogicState) (n : CLINode)
    (h : observedOf k s = false) : deliver k s n = (s, false) := by
  simp [deliver, h]

/-- Once the observer is detached, no later notification runs the
handler body. -/
theorem deliverSeq_not_observed (k : FilterKind) (s : LogicState) (nodes : List CLINode)
    (h : observedOf k s = false) : (deliverSeq k s nodes).2 = 0 := by
  induction nodes generalizing s with
  | nil => rfl
  | cons n t ih =>
    simp only [deliverSeq, h, Bool.false_and, if_false, deliver_not_observed k s n h]
    simpa using ih s h

/-- C9: while the observer is attached, a notification sequence runs the
handler's not-busy body exactly once when some notification reports the
job no longer busy (and never otherwise), and that body detaches the
observer before the terminal status is inspected — the flag is cleared
for every terminal status string. -/
theorem C9_observer_detached_once (k : FilterKind) (s : LogicState) (nodes : List CLINode)
    (h : observedOf k s = true) :
    (deliverSeq k s nodes).2 = (if nodes.any (fun n => !n.isBusy) then 1 else 0) ∧
    (∀ n : CLINode, n.isBusy = false → observedOf k (onNodeModified k s n).1 = false) := by
  refine ⟨?_, fun n hn => observedOf_after_detach k s n hn⟩
  induction nodes generalizing s with
  | nil => rfl
  | cons n t ih =>
    by_cases hb : n.isBusy = true
    · have hdel : deliver k s n = (s, false) := by
        rw [deliver, if_pos h, onNodeModified_busy k s n hb]
      simp only [deliverSeq, hdel, h, hb, Bool.not_true, Bool.and_false, if_false,
        List.any_cons]
      simpa using ih s h
    · have hb' : n.isBusy = false := by simpa using hb
      have hdel : (deliver k s n).1 = (onNodeModified k s n).1 := by
        rw [deliver, if_pos h]
      have hobs : observedOf k (deliver k s n).1 = false := by
        rw [hdel]; exact observedOf_after_detach k s n hb'
      simp only [deliverSeq, h, hb', Bool.not_false, Bool.and_true, if_true,
        List.any_cons, Bool.true_or, deliverSeq_not_observed k _ t hobs]


/-- Witness for C9: with the GLCM observer attached, a busy notification
followed by two not-busy notifications runs the body exactly once, and
the detach happens even for a non-`"Completed"` terminal status. -/
theorem C9_observer_detached_once_witness :
    (deliverSeq .Cooccurrence ⟨none, none, none, true, true, true, true⟩
        [⟨true, "Running", ""⟩, ⟨false, "CompletedWithErrors", ""⟩,
         ⟨false, "Completed", "1"⟩]).2 = 1 ∧
    observedOf .Cooccurrence
      (onNodeModified .Cooccurrence ⟨none, none, none, true, true, true, true⟩
        ⟨false, "CompletedWithErrors", ""⟩).1 = false := by
  have h := C9_observer_detached_once .Cooccurrence ⟨none, none, none, true, true, true, true⟩
    [⟨true, "Running", ""⟩, ⟨false, "CompletedWithErrors", ""⟩, ⟨false, "Completed", "1"⟩] rfl
  exact ⟨h.1.trans (by decide), h.2 _ rfl⟩

/-- A delivery for the co-occurrence job rewrites only its own slot and
its own observer flag. -/
theorem deliver_cooc (s : LogicState) (n : CLINode) :
    (deliver .Cooccurrence s n).1 = { s with
      featuresGLCM := slotNext n s.glcmObserved s.featuresGLCM,
      glcmObserved := obsNext n s.glcmObserved } := by
  obtain ⟨fg, fr, fb, og, orl, ob, hi⟩ := s
  simp only [deliver, observedOf, onNodeModified, onGLCMNodeModified, slotNext, obsNext]
  cases og
  · simp
  · by_cases hb : n.isBusy
    · simp [hb]
    · by_cases hst : n.statusString = "Completed"
      · cases hp : parseFeatureVector? n.outputValue <;> simp [hb, hst, hp]
      · simp [hb, hst]

/-- A delivery for the run-length job rewrites only its own slot and its
own observer flag. -/
theorem deliver_runlength (s : LogicState) (n : CLINode) :
    (deliver .RunLength s n).1 = { s with
      featuresGLRLM := slotNext n s.glrlmObserved s.featuresGLRLM,
      glrlmObserved := obsNext n s.glrlmObserved } := by
  obtain ⟨fg, fr, fb, og, orl, ob, hi⟩ := s
  simp only [deliver, observedOf, onNodeModified, onGLRLMNodeModified, slotNext, obsNext]
  cases orl
  · simp
  · by_cases hb : n.isBusy
    · simp [hb]
    · by_cases hst : n.statusString = "Completed"
      · cases hp : parseFeatureVector? n.outputValue <;> simp [hb, hst, hp]
      · simp [hb, hst]

/-- A delivery for the bone-morphometry job rewrites only its own slot
and its own observer flag. -/
theorem deliver_morpho (s : LogicState) (n : CLINode) :
    (deliver .Morphometry s n).1 = { s with
      featuresBM := slotNext n s.bmObserved s.featuresBM,
      bmObserved := obsNext n s.bmObserved } := by
  obtain ⟨fg, fr, fb, og, orl, ob, hi⟩ := s
  simp only [deliver, observedOf, onNodeModified, onBMNodeModified, slotNext, obsNext]
  cases ob
  · simp
  · by_cases hb : n.isBusy
    · simp [hb]
    · by_cases hst : n.statusString = "Completed"
      · cases hp : parseFeatureVector? n.outputValue <;> simp [hb, hst, hp]
      · simp [hb, hst]

/-- C4: each completion handler writes only its own filter family's slot,
so the final `FeatureResultSet` after the three completions is identical
for every arrival order of the three notifications: all six permutations
(GLCM→RL→BM, GLCM→BM→RL, RL→GLCM→BM, RL→BM→GLCM, BM→GLCM→RL, BM→RL→GLCM)
produce the same result set. -/
theorem C4_order_independent (s : LogicState) (nG nR nB : CLINode) :
    (resultSet (deliver .Morphometry
        ((deliver .RunLength ((deliver .Cooccurrence s nG).1) nR).1) nB).1 =
      resultSet (deliver .RunLength
        ((deliver .Morphometry ((deliver .Cooccurrence s nG).1) nB).1) nR).1) ∧
    (resultSet (deliver .Morphometry
        ((deliver .RunLength ((deliver .Cooccurrence s nG).1) nR).1) nB).1 =
      resultSet (deliver .Morphometry
        ((deliver .Cooccurrence ((deliver .RunLength s nR).1) nG).1) nB).1) ∧
    (resultSet (deliver .Morphometry
        ((deliver .RunLength ((deliver .Cooccurrence s nG).1) nR).1) nB).1 =
      resultSet (deliver .Cooccurrence
        ((deliver .Morphometry ((deliver .RunLength s nR).1) nB).1) nG).1) ∧
    (resultSet (deliver .Morphometry
        ((deliver .RunLength ((deliver .Cooccurrence s nG).1) nR).1) nB).1 =
      resultSet (deliver .RunLength
        ((deliver .Cooccurrence ((deliver .Morphometry s nB).1) nG).1) nR).1) ∧
    (resultSet (deliver .Morphometry
        ((deliver .RunLength ((deliver .Cooccurrence s nG).1) nR).1) nB).1 =
      resultSet (deliver .Cooccurrence
        ((deliver .RunLength ((deliver .Morphometry s nB).1) nR).1) nG).1) := by
  obtain ⟨fg, fr, fb, og, orl, ob, hi⟩ := s
  refine ⟨?_, ?_, ?_, ?_, ?_⟩ <;>
    simp [deliver_cooc, deliver_runlength, deliver_morpho, resultSet]

end BoneTexture
